import Mathlib

/-!
# Verification of `jupyter_watchdog`

A shallow embedding of `src/jupyter_watchdog/watchdog.py` (class
`NotifyMagics`): session state, the notification dispatcher, the two
execution hooks and the three user commands, together with proofs of the
specified properties.

Modelling conventions:
* Python `float` time values and thresholds become `ℚ` (exact arithmetic;
  the comparisons in the source are ordinary order comparisons).
* `time.time()` is a host clock; each function that reads it takes the
  current time as an explicit argument.
* Side effects (printing, rendering, the outgoing HTTP post) become data
  returned by the function, so that "the network layer is called" is a
  decidable statement about the returned value.
* `IPython`'s `shell.run_cell` is host code; `notify` takes its outcome as
  an argument: either a normally returned `ExecutionResult` or a raised
  exception (`Except.error`).
-/

/-- Rendering of a Python exception: `str` of the exception's type name and
message. Only its presence matters to the properties below; the host
`str()` call is abstracted as an already-rendered string. -/
abbrev ErrText := String

/-- The host runtime's `ExecutionResult`, restricted to the fields the
extension reads: `success`, `error_in_exec` and `result`.  `α` is the type
of the value in the `result` field. -/
structure ExecutionResult (α : Type) where
  success : Bool
  error_in_exec : Option ErrText
  result : α
  deriving Repr, DecidableEq

/-- The `NotificationType` literal type: `"system" | "discord" | "watchdog"`. -/
inductive NotificationType
  | system
  | discord
  | watchdog
  deriving Repr, DecidableEq

/-- The mutable fields of `NotifyMagics` (session state). -/
structure State where
  watchdog_threshold : ℚ
  start_time : ℚ
  hooks_registered : Bool
  suppress_auto_watchdog : Bool
  webhook_url : Option String
  deriving Repr, DecidableEq

/-- `NotifyMagics.__init__`: thresholds and flags zeroed, webhook URL seeded
from the environment variable `JUPYTER_WATCHDOG_WEBHOOK` (passed in as
`env`, `none` when unset). -/
def State.init (env : Option String) : State :=
  { watchdog_threshold := 0
    start_time := 0
    hooks_registered := false
    suppress_auto_watchdog := false
    webhook_url := env }

/-- Python truthiness of the `Optional[str]` field `webhook_url`:
`None` and the empty string are falsy. -/
def optStrTruthy : Option String → Bool
  | none => false
  | some s => !s.isEmpty

/-- ASCII lower-casing of one character, as `str.lower` does on the ASCII
range (the mode arguments of interest are ASCII). -/
def asciiLower (c : Char) : Char :=
  if 'A' ≤ c ∧ c ≤ 'Z' then Char.ofNat (c.toNat + 32) else c

/-- Models Python `str.lower()` (ASCII case folding). -/
def pyLower (s : String) : String := String.mk (s.data.map asciiLower)

/-- Models Python `str.strip()`: whitespace removed from both ends. -/
def pyStrip (s : String) : String :=
  String.mk (((s.data.dropWhile Char.isWhitespace).reverse.dropWhile
    Char.isWhitespace).reverse)

/-- Models Python `str.startswith(pre)`. -/
def pyStartsWith (s pre : String) : Bool := pre.data.isPrefixOf s.data

/-- Models the host format `f"{x:.2f}"`: the value rounded to two decimal
places (ties away from zero) and rendered with exactly two digits after the
point. -/
def fmt2 (q : ℚ) : String :=
  let sign := if q < 0 then "-" else ""
  let c : ℕ := (|q| * 100 + 1/2).floor.toNat
  let whole := c / 100
  let frac := c % 100
  let fracStr := if frac < 10 then "0" ++ toString frac else toString frac
  sign ++ toString whole ++ "." ++ fracStr

/-- The observable effects of one call to `_handle_notification`:
the in-page banner (`_print_status`), the browser notification
(`_send_browser_notification`), and the optional webhook post
(`_send_discord_request`), recorded as `(url, message)` when attempted. -/
structure Dispatch where
  banner_message : String
  banner_success : Bool
  browser_title : String
  browser_body : String
  webhook : Option (String × String)
  deriving Repr, DecidableEq

/-- `NotifyMagics._handle_notification`: builds the status message and fans
it out to the three sinks.  The webhook post is attempted exactly when
`self.webhook_url` is truthy and the notification type is `discord` or
`watchdog`. -/
def handle_notification {α : Type} (st : State) (result : ExecutionResult α)
    (duration : ℚ) (notification_type : NotificationType) : Dispatch :=
  let success := result.success
  let status_text := if success then "Success" else "Failure"
  let status_icon := if success then "✅" else "❌"
  let msg_lines := ["Status: " ++ status_icon ++ " " ++ status_text,
                    "Time: " ++ fmt2 duration ++ "s"]
  let msg_lines :=
    match success, result.error_in_exec with
    | false, some err => msg_lines ++ ["Error: " ++ err]
    | _, _ => msg_lines
  let msg_body := String.intercalate "\n" msg_lines
  let title := "Jupyter Watchdog Alert"
  let should_send_discord :=
    optStrTruthy st.webhook_url
      && (notification_type == NotificationType.discord
          || notification_type == NotificationType.watchdog)
  { banner_message := "Execution finished in " ++ fmt2 duration ++ "s"
    banner_success := success
    browser_title := title
    browser_body := msg_body
    webhook :=
      if should_send_discord then
        -- the truthiness test guarantees `webhook_url = some url` here
        some (st.webhook_url.getD "", "**" ++ title ++ "**\n" ++ msg_body)
      else none }

/-- `NotifyMagics.pre_run_cell_hook`: records the current time. -/
def pre_run_cell_hook (st : State) (now : ℚ) : State :=
  { st with start_time := now }

/-- `NotifyMagics.post_run_cell_hook`: no-op when the threshold is not
positive or the suppress flag is set; otherwise dispatches a
watchdog-tagged notification when the elapsed time strictly exceeds the
threshold.  Returns the dispatched notification, if any. -/
def post_run_cell_hook {α : Type} (st : State) (now : ℚ)
    (result : ExecutionResult α) : Option Dispatch :=
  if st.watchdog_threshold ≤ 0 then none
  else if st.suppress_auto_watchdog then none
  else
    let duration := now - st.start_time
    if duration > st.watchdog_threshold then
      some (handle_notification st result duration NotificationType.watchdog)
    else none

/-- `NotifyMagics.watchdog_setup` (`%watchdog_setup <url>`): empty stripped
input prints usage; input whose stripped form does not start with `"http"`
is rejected; otherwise the stripped input is stored as the webhook URL.
Returns the new state and the printed lines. -/
def watchdog_setup (st : State) (line : String) : State × List String :=
  let url := pyStrip line
  if url = "" then (st, ["Usage: %watchdog_setup <webhook_url>"])
  else if !pyStartsWith url "http" then
    (st, ["Error: Invalid URL. Must start with http:// or https://"])
  else
    ({ st with webhook_url := some url },
     ["Discord Webhook URL updated successfully."])

/-- The outcome of `line.strip()` followed by `float(...)` inside
`watchdog_auto`: the stripped line was empty, `float` raised `ValueError`,
or `float` returned a number.  The host language's `float` parser is not
repository code and is abstracted as this argument. -/
inductive ParsedLine
  | empty
  | notNum
  | num (seconds : ℚ)
  deriving Repr, DecidableEq

/-- Models the host rendering of a number inside a formatted message. -/
def fmtNum (q : ℚ) : String := toString q

/-- `NotifyMagics.watchdog_auto` (`%watchdog_auto <seconds>`): empty input
reports the current threshold; a non-number or a negative number is
rejected with an error and no state change; otherwise the threshold is
stored and the hooks are registered (when it is positive) or unregistered
(when it is zero), with the registration state tracked by
`hooks_registered`.  Returns the new state and the printed lines. -/
def watchdog_auto (st : State) (arg : ParsedLine) : State × List String :=
  match arg with
  | ParsedLine.empty =>
      (st, ["Current threshold: " ++ fmtNum st.watchdog_threshold
              ++ "s (0 = disabled)"])
  | ParsedLine.notNum => (st, ["Error: Seconds must be a number."])
  | ParsedLine.num seconds =>
      if seconds < 0 then (st, ["Error: Seconds cannot be negative."])
      else
        let st := { st with watchdog_threshold := seconds }
        if 0 < st.watchdog_threshold then
          if st.hooks_registered = false then
            ({ st with hooks_registered := true },
             ["Watchdog enabled. Alerting if cell execution > "
                ++ fmtNum st.watchdog_threshold ++ "s."])
          else
            (st, ["Watchdog threshold updated to "
                    ++ fmtNum st.watchdog_threshold ++ "s."])
        else
          if st.hooks_registered then
            ({ st with hooks_registered := false }, ["Watchdog disabled."])
          else
            (st, ["Watchdog is already disabled."])

/-- The host shell's `run_cell` behaviour on the wrapped cell: either a
normally returned `ExecutionResult`, or a raised exception (rendered as a
string) that propagates out of `notify`. -/
abbrev RunCellOutcome (α : Type) := Except ErrText (ExecutionResult α)

/-- What a call to `notify` produces: the session state after the call,
the warning lines printed while parsing the mode argument, and either the
propagated exception or the returned value (`result.result`) together with
the dispatched notification. -/
structure NotifyOutcome (α : Type) where
  state : State
  warnings : List String
  outcome : Except ErrText (α × Dispatch)
  deriving Repr

/-- `NotifyMagics.notify` (`%%notify [system|discord]`): parses the mode
from the stripped, lowercased argument line (unknown non-empty values warn
and fall back to `system`), sets the suppress flag, runs the cell (outcome
supplied as `run_cell`), clears the suppress flag in a `finally` block so
it is cleared even when `run_cell` raises, dispatches a notification
tagged by the mode, and returns `result.result`.  `t0` and `t1` are the two
`self._now()` readings. -/
def notify {α : Type} (st : State) (line : String)
    (run_cell : RunCellOutcome α) (t0 t1 : ℚ) : NotifyOutcome α :=
  let args := pyLower (pyStrip line)
  let modeWarn : NotificationType × List String :=
    if args = "discord" then (NotificationType.discord, [])
    else if args ≠ "" ∧ args ≠ "system" then
      (NotificationType.system,
       ["Warning: Unknown argument \x27" ++ args
          ++ "\x27. Defaulting to \x27system\x27."])
    else (NotificationType.system, [])
  let st1 := { st with suppress_auto_watchdog := true }
  match run_cell with
  | Except.error e =>
      { state := { st1 with suppress_auto_watchdog := false }
        warnings := modeWarn.2
        outcome := Except.error e }
  | Except.ok result =>
      let st2 := { st1 with suppress_auto_watchdog := false }
      let duration := t1 - t0
      { state := st2
        warnings := modeWarn.2
        outcome := Except.ok
          (result.result, handle_notification st2 result duration modeWarn.1) }

/-- One user-visible operation on the session state, for reachability. -/
inductive Op (α : Type)
  | auto (arg : ParsedLine)
  | setup (line : String)
  | notifyCell (line : String) (run_cell : RunCellOutcome α) (t0 t1 : ℚ)

/-- The state transition of one operation (outputs discarded). -/
def step {α : Type} (st : State) (op : Op α) : State :=
  match op with
  | Op.auto arg => (watchdog_auto st arg).1
  | Op.setup line => (watchdog_setup st line).1
  | Op.notifyCell line rc t0 t1 => (notify st line rc t0 t1).state

/-- Running a sequence of operations from a state. -/
def runOps {α : Type} (st : State) (ops : List (Op α)) : State :=
  ops.foldl step st

/-- The hook-registration invariant of the session state. -/
def hooksInv (st : State) : Prop :=
  st.hooks_registered = true ↔ 0 < st.watchdog_threshold

/-- A concrete session state with a configured webhook URL, for the
concrete-input corollaries. -/
def st0 : State := State.init (some "https://example.test/hook")

/-- A concrete successful `run_cell` outcome, for the concrete-input
corollaries. -/
def rc0 : RunCellOutcome Nat :=
  Except.ok { success := true, error_in_exec := none, result := 42 }

/-- C1: For every state, execution result and clock reading, with
`d = now - start_time` the elapsed duration, `post_run_cell_hook`
dispatches a notification — and that notification is the one built with tag
`watchdog` — iff the stored threshold `t` is positive, the suppress flag is
false and `d > t` strictly.  In particular it never dispatches when
`t ≤ 0`. -/
theorem post_hook_dispatches_iff {α : Type} (st : State) (now : ℚ)
    (result : ExecutionResult α) :
    post_run_cell_hook st now result =
        some (handle_notification st result (now - st.start_time)
          NotificationType.watchdog)
      ↔ 0 < st.watchdog_threshold
          ∧ st.suppress_auto_watchdog = false
          ∧ st.watchdog_threshold < now - st.start_time := by
  unfold post_run_cell_hook
  by_cases h1 : st.watchdog_threshold ≤ 0
  · simp [h1, not_lt.mpr h1]
  · by_cases h2 : st.suppress_auto_watchdog = true
    · simp [h1, h2]
    · by_cases h3 : st.watchdog_threshold < now - st.start_time
      · simp [h1, h2, h3, lt_of_not_le h1]
      · simp [h1, h2, h3]

/-- C2: For every dispatched notification, the remote webhook send is attempted
iff a webhook URL is configured (a truthy `webhook_url`) and the
notification tag is `discord` or `watchdog`; with tag `system` the network
layer is never called even when a URL is configured. -/
theorem webhook_sent_iff {α : Type} (st : State) (result : ExecutionResult α)
    (duration : ℚ) (t : NotificationType) :
    (handle_notification st result duration t).webhook ≠ none
      ↔ optStrTruthy st.webhook_url = true
          ∧ (t = NotificationType.discord ∨ t = NotificationType.watchdog) := by
  unfold handle_notification
  cases t <;> cases h : optStrTruthy st.webhook_url <;>
    simp [h]

/-- C3: For every invocation of `notify` — any mode line, any `run_cell`
outcome including a raised exception, any clock readings — the suppress
flag is false in the state after `notify` returns, because the `finally`
block clears it on every exit path. -/
theorem notify_restores_suppress {α : Type} (st : State) (line : String)
    (rc : RunCellOutcome α) (t0 t1 : ℚ) :
    (notify st line rc t0 t1).state.suppress_auto_watchdog = false := by
  cases rc <;> rfl

/-- C9: The value `notify` hands back to the caller is exactly the
`result` field of the `ExecutionResult` returned by the host's `run_cell`,
unchanged, and a raised exception propagates unchanged: projecting the
returned value out of `notify`'s outcome gives precisely `run_cell`'s
outcome with the `result` field projected out. -/
theorem notify_returns_result {α : Type} (st : State) (line : String)
    (rc : RunCellOutcome α) (t0 t1 : ℚ) :
    Except.map Prod.fst (notify st line rc t0 t1).outcome
      = Except.map ExecutionResult.result rc := by
  cases rc <;> rfl

/-- C10: `notify` never changes `watchdog_threshold`, `hooks_registered`
or `webhook_url`: whatever the mode line, the `run_cell` outcome and the
clock readings, those three fields are the same after the call as before. -/
theorem notify_frame {α : Type} (st : State) (line : String)
    (rc : RunCellOutcome α) (t0 t1 : ℚ) :
    (notify st line rc t0 t1).state.watchdog_threshold = st.watchdog_threshold
    ∧ (notify st line rc t0 t1).state.hooks_registered = st.hooks_registered
    ∧ (notify st line rc t0 t1).state.webhook_url = st.webhook_url := by
  cases rc <;> exact ⟨rfl, rfl, rfl⟩

/-- With tag `system`, `_handle_notification` never attempts the webhook
post, whatever the state. -/
lemma handle_system_no_webhook {α : Type} (st : State)
    (result : ExecutionResult α) (duration : ℚ) :
    (handle_notification st result duration NotificationType.system).webhook
      = none := by
  cases h : optStrTruthy st.webhook_url <;> simp [handle_notification, h]

/-- C8: An unknown non-empty (stripped, lowercased) mode argument to
`notify` makes it print the fallback warning and otherwise behave exactly
as mode `system`: same final state, same outcome as the call with line
`"system"`, and in particular the remote webhook is never attempted; an
empty mode argument selects `system` with no warning printed. -/
theorem notify_mode_fallback {α : Type} (st : State) (line : String)
    (rc : RunCellOutcome α) (t0 t1 : ℚ) :
    (pyLower (pyStrip line) ≠ "" → pyLower (pyStrip line) ≠ "system" →
     pyLower (pyStrip line) ≠ "discord" →
       (notify st line rc t0 t1).state = (notify st "system" rc t0 t1).state
       ∧ (notify st line rc t0 t1).outcome
           = (notify st "system" rc t0 t1).outcome
       ∧ (notify st line rc t0 t1).warnings
           = ["Warning: Unknown argument \x27" ++ pyLower (pyStrip line)
                ++ "\x27. Defaulting to \x27system\x27."]
       ∧ Except.map (fun p => p.2.webhook) (notify st line rc t0 t1).outcome
           = Except.map (fun _ => none) rc)
    ∧ (pyLower (pyStrip line) = "" →
        (notify st line rc t0 t1).state = (notify st "system" rc t0 t1).state
        ∧ (notify st line rc t0 t1).outcome
            = (notify st "system" rc t0 t1).outcome
        ∧ (notify st line rc t0 t1).warnings = []) := by
  have hs : pyLower (pyStrip "system") = "system" := by decide
  constructor
  · intro h1 h2 h3
    cases rc with
    | error e =>
      refine ⟨rfl, rfl, ?_, rfl⟩
      simp [notify, h1, h2, h3]
    | ok r =>
      refine ⟨rfl, ?_, ?_, ?_⟩
      · simp [notify, h1, h2, h3, hs]
      · simp [notify, h1, h2, h3]
      · simp [notify, h1, h2, h3, handle_system_no_webhook, Except.map]
  · intro h1
    cases rc with
    | error e =>
      refine ⟨rfl, rfl, ?_⟩
      simp [notify, h1]
    | ok r =>
      refine ⟨rfl, ?_, ?_⟩
      · simp [notify, h1, hs]
      · simp [notify, h1]

/-- C5: A non-numeric argument to `watchdog_auto`, or one that parses to a
negative number, makes it print an error message and leave the session
state — threshold, hook registration, and every other field — exactly as
it was. -/
theorem watchdog_auto_rejects (st : State) :
    watchdog_auto st ParsedLine.notNum
        = (st, ["Error: Seconds must be a number."])
    ∧ ∀ q : ℚ, q < 0 →
        watchdog_auto st (ParsedLine.num q)
          = (st, ["Error: Seconds cannot be negative."]) := by
  refine ⟨rfl, fun q hq => ?_⟩
  simp [watchdog_auto, hq]

/-- Applying `watchdog_auto_rejects` at a concrete state and the concrete
negative input `-1`. -/
theorem watchdog_auto_rejects_witness :
    watchdog_auto (State.init none) (ParsedLine.num (-1))
      = (State.init none, ["Error: Seconds cannot be negative."]) :=
  (watchdog_auto_rejects (State.init none)).2 (-1) (by norm_num)

/-- C7: Disabling the watchdog (`watchdog_auto` with `0`) is idempotent:
after any first disable call, a repeated disable finds the threshold `0`
and the hooks unregistered, prints exactly "Watchdog is already disabled."
(no error), and returns the state unchanged. -/
theorem disable_idempotent (st : State) :
    watchdog_auto (watchdog_auto st (ParsedLine.num 0)).1 (ParsedLine.num 0)
        = ((watchdog_auto st (ParsedLine.num 0)).1,
           ["Watchdog is already disabled."])
    ∧ (watchdog_auto st (ParsedLine.num 0)).1.watchdog_threshold = 0
    ∧ (watchdog_auto st (ParsedLine.num 0)).1.hooks_registered = false := by
  obtain ⟨t, s0, hr, sup, url⟩ := st
  cases hr <;> simp [watchdog_auto]

/-- Every single operation preserves the hook-registration invariant. -/
lemma hooksInv_step {α : Type} (st : State) (op : Op α) (h : hooksInv st) :
    hooksInv (step st op) := by
  cases op with
  | setup line =>
    unfold step watchdog_setup
    by_cases h1 : pyStrip line = "" <;> by_cases h2 : pyStartsWith (pyStrip line) "http" = true <;>
      simpa [h1, h2, hooksInv] using h
  | notifyCell line rc t0 t1 =>
    cases rc <;> simpa [step, notify, hooksInv] using h
  | auto arg =>
    cases arg with
    | empty => exact h
    | notNum => exact h
    | num s =>
      by_cases hneg : s < 0
      · simpa [step, watchdog_auto, hneg] using h
      · by_cases hpos : 0 < s
        · by_cases hreg : st.hooks_registered = false <;>
            simp [step, watchdog_auto, hneg, hpos, hreg, hooksInv]
        · have hz : ¬ (0 : ℚ) < s := hpos
          by_cases hreg : st.hooks_registered = true <;>
            simp [step, watchdog_auto, hneg, hpos, hreg, hooksInv, hz]

/-- Running any operation sequence from an invariant state keeps the
invariant. -/
lemma hooksInv_runOps {α : Type} (ops : List (Op α)) (st : State)
    (h : hooksInv st) : hooksInv (runOps st ops) := by
  induction ops generalizing st with
  | nil => exact h
  | cons op ops ih => exact ih (step st op) (hooksInv_step st op h)

/-- C6: In every state reachable from the initial state (any environment
seed) by any sequence of `watchdog_auto`, `watchdog_setup` and `notify`
operations — in particular after every completed `watchdog_auto` call —
the hooks are registered iff the stored threshold is positive. -/
theorem hooks_registered_invariant {α : Type} (env : Option String)
    (ops : List (Op α)) :
    (runOps (State.init env) ops).hooks_registered = true
      ↔ 0 < (runOps (State.init env) ops).watchdog_threshold :=
  hooksInv_runOps ops (State.init env) (by simp [hooksInv, State.init])

/-- C4 counterexample: the input `"httpx"` is non-empty after stripping
and starts with neither `"http://"` nor `"https://"`, so the claim says it
is rejected with the stored URL unchanged; but `watchdog_setup` accepts
it — starting from a state with no URL, it stores `"httpx"` and prints the
success message, because the source only checks `startswith("http")`. -/
theorem setup_scheme_counterexample :
    pyStrip "httpx" ≠ ""
    ∧ pyStartsWith (pyStrip "httpx") "http://" = false
    ∧ pyStartsWith (pyStrip "httpx") "https://" = false
    ∧ (State.init none).webhook_url = none
    ∧ (watchdog_setup (State.init none) "httpx").1.webhook_url = some "httpx"
    ∧ (watchdog_setup (State.init none) "httpx").2
        = ["Discord Webhook URL updated successfully."] := by
  decide

/-- C4 (amended): For every input to `watchdog_setup`: if the stripped
input is empty, the usage message is printed and nothing changes; if the
stripped input is non-empty and does not start with `"http"`, it is
rejected with an error message and nothing changes; otherwise — the
stripped input starts with `"http"`, which admits every `http://` and
`https://` URL but also any other `"http"`-prefixed string — it is stored
as the webhook URL, overwriting any previous value including one seeded
from the environment variable at load time. -/
theorem setup_amended (st : State) (line : String) :
    ((watchdog_setup st line).1.webhook_url
        = if pyStrip line ≠ "" ∧ pyStartsWith (pyStrip line) "http" = true
          then some (pyStrip line) else st.webhook_url)
    ∧ ((watchdog_setup st line).2
        = [if pyStrip line = "" then "Usage: %watchdog_setup <webhook_url>"
           else if pyStartsWith (pyStrip line) "http"
           then "Discord Webhook URL updated successfully."
           else "Error: Invalid URL. Must start with http:// or https://"])
    ∧ (watchdog_setup st line).1.watchdog_threshold = st.watchdog_threshold
    ∧ (watchdog_setup st line).1.hooks_registered = st.hooks_registered
    ∧ (watchdog_setup st line).1.start_time = st.start_time
    ∧ (watchdog_setup st line).1.suppress_auto_watchdog
        = st.suppress_auto_watchdog := by
  by_cases h1 : pyStrip line = "" <;>
    by_cases h2 : pyStartsWith (pyStrip line) "http" = true <;>
      simp [watchdog_setup, h1, h2]

/-- Applying `notify_mode_fallback` at the concrete unknown mode line
`"foo"` and at the concrete empty line. -/
theorem notify_mode_fallback_witness :
    (notify st0 "foo" rc0 0 1).warnings
        = ["Warning: Unknown argument \x27foo\x27. Defaulting to \x27system\x27."]
    ∧ (notify st0 "" rc0 0 1).warnings = [] := by
  constructor
  · exact (((notify_mode_fallback st0 "foo" rc0 0 1).1
      (by decide) (by decide) (by decide)).2.2.1).trans (by decide)
  · exact ((notify_mode_fallback st0 "" rc0 0 1).2 (by decide)).2.2
